import Mathlib

/-
Verification development for the prost solver sources: a shallow embedding of
the solver iteration loop (Solver::Solve), the dispatcher (mexFunction), the
solve_problem / eval_prox commands, and the 1D scalar prox functions from
function_1d.hpp, together with theorems settling the specification claims.
Scalars (C++ float / double) are embedded as rationals.
-/

namespace prost

/-! ## Solver model (solver.cpp, embedded in ex_rof.m) -/

/-- The ConvergenceResult enum of Solver. -/
inductive ConvergenceResult
  | kConverged
  | kStoppedMaxIters
  | kStoppedUser
deriving DecidableEq

/-- The data Solver::Solve consumes: the options fields it reads
(max_iters, num_cback_calls, solve_dual_problem, warm starts x0/y0) and, for
iteration index `i`, the values the backend getters and the two callbacks
return after PerformIteration of that iteration.  The callbacks are opaque
host functions; their observed boolean returns are functions of the iteration
index. -/
structure SolveEnv where
  maxIters : ℕ
  numCbackCalls : ℕ
  solveDualProblem : Bool
  x0 : List ℚ
  y0 : List ℚ
  primalRes : ℕ → ℚ
  dualRes : ℕ → ℚ
  epsPri : ℕ → ℚ
  epsDua : ℕ → ℚ
  stoppingCb : ℕ → Bool
  intermCb : ℕ → Bool

/-- The sentinel `1e8` pushed onto the callback schedule when
`num_cback_calls < 2`. -/
def cbSentinel : ℚ := 10 ^ 8

/-- Modelled from the spec: `linspace` (declared in `prost/common.hpp`, which
is not among the sources) produces `n` points spaced linearly over the
interval from `a` to `b`. -/
def linspace (a b : ℚ) (n : ℕ) : List ℚ :=
  (List.range n).map (fun (k : ℕ) => a + (b - a) * (k : ℚ) / ((n : ℚ) - 1))

/-- The convergence test on the backend residuals:
`(primal_res < eps_pri) && (dual_res < eps_dua)`. -/
def residualConverged (env : SolveEnv) (i : ℕ) : Bool :=
  decide (env.primalRes i < env.epsPri i) && decide (env.dualRes i < env.epsDua i)

/-- The condition guarding the intermediate-solution block at iteration `i`:
`i >= cb_iters.front() || is_converged || is_stopped || i == max_iters - 1`. -/
def stepTrig (env : SolveEnv) (i : ℕ) (cb : List ℚ) : Bool :=
  decide (cb.headD cbSentinel ≤ (i : ℚ)) || residualConverged env i
    || env.stoppingCb i || decide (i = env.maxIters - 1)

/-- Whether the intermediate callback is invoked at iteration `i`: the block
must trigger and `num_cback_calls >= 1` must hold. -/
def stepInvoked (env : SolveEnv) (i : ℕ) (cb : List ℚ) : Bool :=
  stepTrig env i cb && decide (1 ≤ env.numCbackCalls)

/-- The final value of `is_converged` at iteration `i`: the residual test,
or-ed with the intermediate callback's return when it was invoked. -/
def stepConv (env : SolveEnv) (i : ℕ) (cb : List ℚ) : Bool :=
  residualConverged env i || (stepInvoked env i cb && env.intermCb i)

/-- The break decision at the end of the loop body: the `is_stopped` check
comes first and yields kStoppedUser, then the `is_converged` check yields
kConverged, otherwise the loop continues. -/
def stepBrk (env : SolveEnv) (i : ℕ) (cb : List ℚ) : Option ConvergenceResult :=
  if env.stoppingCb i then some ConvergenceResult.kStoppedUser
  else if stepConv env i cb then some ConvergenceResult.kConverged
  else none

/-- The callback schedule after iteration `i`: `pop_front` exactly when the
intermediate-solution block triggered. -/
def stepCbIters (env : SolveEnv) (i : ℕ) (cb : List ℚ) : List ℚ :=
  if stepTrig env i cb then cb.tail else cb

/-- The iteration loop of Solver::Solve, starting at iteration `i` with
`fuel` iterations remaining and callback schedule `cb`.  Returns the
ConvergenceResult together with the list of iterations at which the
intermediate callback was invoked.  Exhausting the fuel leaves the initial
result kStoppedMaxIters. -/
def solveLoopAux (env : SolveEnv) : ℕ → ℕ → List ℚ → ConvergenceResult × List ℕ
  | _, 0, _ => (ConvergenceResult.kStoppedMaxIters, [])
  | i, fuel + 1, cb =>
    match stepBrk env i cb with
    | some r => (r, if stepInvoked env i cb then [i] else [])
    | none =>
      let rest := solveLoopAux env (i + 1) fuel (stepCbIters env i cb)
      (rest.1, (if stepInvoked env i cb then [i] else []) ++ rest.2)

/-- Solver::Solve: build the callback schedule (linspace over
`[0, max_iters - 1]` when `num_cback_calls >= 2`, the sentinel `1e8`
otherwise), then run the loop from iteration 0. -/
def SolverSolve (env : SolveEnv) : ConvergenceResult × List ℕ :=
  let cbIters :=
    if 2 ≤ env.numCbackCalls
    then linspace 0 ((env.maxIters : ℚ) - 1) env.numCbackCalls
    else [cbSentinel]
  solveLoopAux env 0 env.maxIters cbIters

/-! ## Problem orientation and dualization -/

/-- Modelled from the spec: the `Problem` owns the linear operator K, the two
prox lists for G and F*, the dimensions, and the diagonal preconditioners.
The prox lists and the orientation of K are kept abstract; only what
`Problem::Dualize` exchanges is represented. -/
structure ProblemModel where
  gProx : List String
  fstarProx : List String
  nrows : ℕ
  ncols : ℕ
  tau : List ℚ
  sigma : List ℚ
  kNegTransposed : Bool

/-- Modelled from the spec: `Problem::Dualize` (implemented in `problem.cpp`,
which is not among the sources) exchanges the roles of G and F*, of K and
minus K transposed, and of the primal and dual preconditioners. -/
def ProblemDualize (p : ProblemModel) : ProblemModel :=
  { gProx := p.fstarProx
    fstarProx := p.gProx
    nrows := p.ncols
    ncols := p.nrows
    tau := p.sigma
    sigma := p.tau
    kNegTransposed := !p.kNegTransposed }

/-- The dualization step of Solver::Initialize: when `solve_dual_problem` is
set, apply Dualize once and swap the warm starts x0 and y0. -/
def SolverInit (p : ProblemModel) (env : SolveEnv) : ProblemModel × SolveEnv :=
  if env.solveDualProblem then
    (ProblemDualize p, { env with x0 := env.y0, y0 := env.x0 })
  else (p, env)

/-- The outcome of Solver::Solve including its frame effects. -/
structure SolveRunOut where
  result : ConvergenceResult
  invokedIters : List ℕ
  problem : ProblemModel
  opts : SolveEnv

/-- Solver::Solve with its epilogue: run the loop, then, when
`solve_dual_problem` is set, apply Dualize again and swap x0 and y0 back. -/
def SolverSolveRun (p : ProblemModel) (env : SolveEnv) : SolveRunOut :=
  let r := SolverSolve env
  if env.solveDualProblem then
    { result := r.1
      invokedIters := r.2
      problem := ProblemDualize p
      opts := { env with x0 := env.y0, y0 := env.x0 } }
  else
    { result := r.1, invokedIters := r.2, problem := p, opts := env }

/-! ## The MEX dispatcher (prost.cpp) -/

/-- Host-visible effects of the MEX module: error messages reported via
mexErrMsgTxt, cudaDeviceReset calls, and mexUnlock calls. -/
structure MexState where
  errors : List String
  deviceResets : ℕ
  unlocks : ℕ
deriving DecidableEq

/-- mexErrMsgTxt: report an error message to the host environment. -/
def reportError (msg : String) (s : MexState) : MexState :=
  { s with errors := s.errors ++ [msg] }

/-- The Release command: `mexUnlock(); cudaDeviceReset();`. -/
def Release (s : MexState) : MexState :=
  { s with unlocks := s.unlocks + 1, deviceResets := s.deviceResets + 1 }

/-- The keys of the command registry `cmd_reg`. -/
def commandNames : List String :=
  ["init", "release", "solve_problem", "eval_linop", "eval_prox", "list_gpus", "set_gpu"]

/-- mexFunction: look the command up in the registry and execute it; a
command that is not registered throws inside the try block.  A thrown domain
exception is caught, its message reported via mexErrMsgTxt, and then Release
is invoked.  `runCmd` gives the state change and the optionally thrown
exception message of each registered command's execution. -/
def mexFunction (runCmd : String → MexState → MexState × Option String)
    (cmd : String) (s : MexState) : MexState :=
  if cmd ∈ commandNames then
    let r := runCmd cmd s
    match r.2 with
    | none => r.1
    | some msg => Release (reportError msg r.1)
  else
    Release (reportError ("Unknown command " ++ cmd ++ ".") s)

/-! ## The solve_problem and eval_prox commands (prost.cpp) -/

/-- A MATLAB value handed back through plhs: a double array of a given
length, or a string. -/
inductive MexValue
  | arr (len : ℕ)
  | str (s : String)
deriving DecidableEq

/-- The result string chosen by SolveProblem's switch on the
ConvergenceResult. -/
def resultString : ConvergenceResult → String
  | ConvergenceResult.kConverged => "Converged."
  | ConvergenceResult.kStoppedMaxIters => "Reached maximum iterations."
  | ConvergenceResult.kStoppedUser => "Stopped by user."

/-- The struct built by the SolveProblem command, as (field name, value)
pairs in field order: after Solve returns (and the problem orientation is
restored), the primal solution x (ncols), the dual solution y (nrows),
z = Kx (nrows), w = K-transpose-y (ncols), and the result string. -/
def SolveProblemStruct (p : ProblemModel) (env : SolveEnv) : List (String × MexValue) :=
  let out := SolverSolveRun (SolverInit p env).1 (SolverInit p env).2
  [("x", MexValue.arr out.problem.ncols),
   ("y", MexValue.arr out.problem.nrows),
   ("z", MexValue.arr out.problem.nrows),
   ("w", MexValue.arr out.problem.ncols),
   ("result", MexValue.str (resultString out.result))]

/-- The argument checking and output shape of the EvalProx command:
`nrhs`/`nlhs` count the inputs and outputs (after the command name is
stripped), the argument is an `argRows` times `argCols` matrix, and the
constructed prox has size `proxSize`.  On success the outputs are the result
vector (length n) and the 1-by-1 timing value. -/
def EvalProx (nrhs nlhs argRows argCols proxSize : ℕ) :
    Except String (MexValue × MexValue) :=
  if nrhs < 4 then Except.error "eval_prox: At least four inputs required."
  else if nlhs = 0 then Except.error "One output (result of prox) required."
  else if argCols ≠ 1 then Except.error "Input to prox should be a vector!"
  else if proxSize ≠ argRows then
    Except.error "Size of input argument does not match size of prox!"
  else Except.ok (MexValue.arr argRows, MexValue.arr 1)

/-! ## 1D scalar prox functions (function_1d.hpp) -/

/-- Function1DAbs: the shrinkage step of the 1D absolute-value prox. -/
def Function1DAbs (x0 tau alpha beta : ℚ) : ℚ :=
  if x0 ≥ tau then x0 - tau
  else if x0 ≤ -tau then x0 + tau
  else 0

/-- Function1DSquare: the 1D square prox. -/
def Function1DSquare (x0 tau alpha beta : ℚ) : ℚ :=
  x0 / (1 + tau)

/-- Function1DIndLeq0: prox of the indicator of the set x <= 0. -/
def Function1DIndLeq0 (x0 tau alpha beta : ℚ) : ℚ :=
  if x0 > 0 then 0 else x0

/-- Function1DIndGeq0: prox of the indicator of the set x >= 0. -/
def Function1DIndGeq0 (x0 tau alpha beta : ℚ) : ℚ :=
  if x0 < 0 then 0 else x0

/-- Function1DIndEq0: prox of the indicator of the set x = 0. -/
def Function1DIndEq0 (x0 tau alpha beta : ℚ) : ℚ :=
  0

/-- Function1DIndBox01: prox of the indicator of the interval [0, 1]. -/
def Function1DIndBox01 (x0 tau alpha beta : ℚ) : ℚ :=
  if x0 > 1 then 1 else if x0 < 0 then 0 else x0

/-! ## Concrete test inputs -/

/-- A base environment: one iteration, callbacks disabled, residuals not
converged, no stop request. -/
def baseEnv : SolveEnv :=
  { maxIters := 1
    numCbackCalls := 0
    solveDualProblem := false
    x0 := []
    y0 := []
    primalRes := fun _ => 1
    dualRes := fun _ => 1
    epsPri := fun _ => 1
    epsDua := fun _ => 1
    stoppingCb := fun _ => false
    intermCb := fun _ => false }

/-- Residuals converged and stopping callback firing in the same
iteration. -/
def envC1 : SolveEnv :=
  { baseEnv with
    primalRes := fun _ => 0
    dualRes := fun _ => 0
    stoppingCb := fun _ => true }

/-- Residuals converged, no stop request. -/
def envConv : SolveEnv :=
  { baseEnv with
    primalRes := fun _ => 0
    dualRes := fun _ => 0 }

/-- Exactly one callback call requested: the schedule is the sentinel, yet
the callback gate num_cback_calls >= 1 is open. -/
def envC2 : SolveEnv :=
  { baseEnv with numCbackCalls := 1 }

/-- A linearly spaced schedule of two callback calls over three
iterations. -/
def envLin : SolveEnv :=
  { baseEnv with numCbackCalls := 2, maxIters := 3 }

/-- Stopping callback and intermediate callback both return true. -/
def envStop : SolveEnv :=
  { baseEnv with
    numCbackCalls := 1
    stoppingCb := fun _ => true
    intermCb := fun _ => true }

/-- A small concrete problem. -/
def pC : ProblemModel :=
  { gProx := ["square"]
    fstarProx := ["norm2-abs"]
    nrows := 2
    ncols := 3
    tau := [1, 1, 1]
    sigma := [1, 1]
    kNegTransposed := false }

/-- A command execution that always throws. -/
def runCmdFail : String → MexState → MexState × Option String :=
  fun _ s => (s, some "CUDA failure")

/-- The initial host state. -/
def s0 : MexState :=
  { errors := [], deviceResets := 0, unlocks := 0 }

/-! ## Helper lemmas -/

theorem dualize_dualize (p : ProblemModel) : ProblemDualize (ProblemDualize p) = p := by
  simp [ProblemDualize]

theorem result_trichotomy (r : ConvergenceResult) :
    r = ConvergenceResult.kConverged ∨ r = ConvergenceResult.kStoppedMaxIters ∨
      r = ConvergenceResult.kStoppedUser := by
  cases r <;> simp

theorem run_problem_restored (p : ProblemModel) (env : SolveEnv) :
    (SolverSolveRun (SolverInit p env).1 (SolverInit p env).2).problem = p := by
  cases hd : env.solveDualProblem <;>
    simp [SolverInit, SolverSolveRun, hd, dualize_dualize]

theorem run_x0_restored (p : ProblemModel) (env : SolveEnv) :
    (SolverSolveRun (SolverInit p env).1 (SolverInit p env).2).opts.x0 = env.x0 := by
  cases hd : env.solveDualProblem <;> simp [SolverInit, SolverSolveRun, hd]

theorem run_y0_restored (p : ProblemModel) (env : SolveEnv) :
    (SolverSolveRun (SolverInit p env).1 (SolverInit p env).2).opts.y0 = env.y0 := by
  cases hd : env.solveDualProblem <;> simp [SolverInit, SolverSolveRun, hd]

theorem run_result_eq (p : ProblemModel) (env : SolveEnv) :
    (SolverSolveRun (SolverInit p env).1 (SolverInit p env).2).result =
      (SolverSolve (SolverInit p env).2).1 := by
  cases hd : env.solveDualProblem <;> simp [SolverInit, SolverSolveRun, hd]

theorem resultString_cases (r : ConvergenceResult) :
    resultString r = "Converged." ∨ resultString r = "Reached maximum iterations." ∨
      resultString r = "Stopped by user." := by
  cases r <;> simp [resultString]

theorem stepTrig_of_brk (env : SolveEnv) (i : ℕ) (cb : List ℚ) (r : ConvergenceResult)
    (h : stepBrk env i cb = some r) : stepTrig env i cb = true := by
  unfold stepBrk at h
  by_cases hs : env.stoppingCb i = true
  · simp [stepTrig, hs]
  · rw [if_neg hs] at h
    by_cases hc : stepConv env i cb = true
    · unfold stepConv at hc
      rcases Bool.or_eq_true_iff.mp hc with h1 | h2
      · simp [stepTrig, h1]
      · rw [Bool.and_eq_true] at h2
        have hinv := h2.1
        unfold stepInvoked at hinv
        rw [Bool.and_eq_true] at hinv
        exact hinv.1
    · rw [if_neg hc] at h
      exact absurd h (by simp)

theorem stepBrk_of_stopped (env : SolveEnv) (i : ℕ) (cb : List ℚ)
    (h : env.stoppingCb i = true) :
    stepBrk env i cb = some ConvergenceResult.kStoppedUser := by
  simp [stepBrk, h]

theorem stepBrk_of_conv (env : SolveEnv) (i : ℕ) (cb : List ℚ)
    (hs : env.stoppingCb i = false) (hc : stepConv env i cb = true) :
    stepBrk env i cb = some ConvergenceResult.kConverged := by
  simp [stepBrk, hs, hc]

theorem solveLoop_result_of_brk (env : SolveEnv) (i : ℕ) (cb : List ℚ)
    (r : ConvergenceResult) (fuel : ℕ) (h : stepBrk env i cb = some r)
    (hf : 0 < fuel) : (solveLoopAux env i fuel cb).1 = r := by
  cases fuel with
  | zero => omega
  | succ f => simp [solveLoopAux, h]

theorem loop_invoked_nil (env : SolveEnv) (h : env.numCbackCalls = 0) :
    ∀ fuel i cb, (solveLoopAux env i fuel cb).2 = [] := by
  intro fuel
  induction fuel with
  | zero => intro i cb; simp [solveLoopAux]
  | succ f ih =>
    intro i cb
    have hinv : stepInvoked env i cb = false := by simp [stepInvoked, h]
    cases hbrk : stepBrk env i cb with
    | some r => simp [solveLoopAux, hbrk, hinv]
    | none => simp [solveLoopAux, hbrk, hinv, ih]

theorem loop_invoked_ne_nil (env : SolveEnv) (hn : 1 ≤ env.numCbackCalls) :
    ∀ fuel i cb, i + fuel = env.maxIters → 1 ≤ fuel →
      (solveLoopAux env i fuel cb).2 ≠ [] := by
  intro fuel
  induction fuel with
  | zero => intro i cb _ hf; omega
  | succ f ih =>
    intro i cb hsum _
    cases hbrk : stepBrk env i cb with
    | some r =>
      have htrig := stepTrig_of_brk env i cb r hbrk
      have hinv : stepInvoked env i cb = true := by simp [stepInvoked, htrig, hn]
      simp [solveLoopAux, hbrk, hinv]
    | none =>
      cases f with
      | zero =>
        have hlast : i = env.maxIters - 1 := by omega
        have htrig : stepTrig env i cb = true := by simp [stepTrig, hlast]
        have hinv : stepInvoked env i cb = true := by simp [stepInvoked, htrig, hn]
        simp [solveLoopAux, hbrk, hinv]
      | succ f' =>
        have hrest := ih (i + 1) (stepCbIters env i cb) (by omega) (by omega)
        simp only [solveLoopAux, hbrk]
        intro hcontra
        exact hrest (List.append_eq_nil.mp hcontra).2

/-! ## Claim theorems -/

/-- Claim C1 (amended): `is_converged` is set at an iteration exactly when the
primal residual is strictly below eps_primal and the dual residual is strictly
below eps_dual, or the intermediate callback was invoked that iteration and
returned true; in that case the loop breaks with the Converged result code,
provided the stopping callback did not also return true that iteration. -/
theorem Solve_convergence_declaration (env : SolveEnv) (i : ℕ) (cb : List ℚ) :
    stepConv env i cb =
      ((decide (env.primalRes i < env.epsPri i) &&
          decide (env.dualRes i < env.epsDua i)) ||
        (stepInvoked env i cb && env.intermCb i)) ∧
    (stepConv env i cb = true → env.stoppingCb i = false →
      ∀ fuel, 0 < fuel →
        (solveLoopAux env i fuel cb).1 = ConvergenceResult.kConverged) := by
  refine ⟨rfl, fun hc hs fuel hf => ?_⟩
  exact solveLoop_result_of_brk env i cb _ fuel (stepBrk_of_conv env i cb hs hc) hf

/-- Witness for C1: in a run whose residuals are below their tolerances and
whose stopping callback stays false, Solve declares convergence at iteration 0
and returns Converged. -/
theorem Solve_convergence_declaration_w :
    stepConv envConv 0 [cbSentinel] = true ∧ envConv.stoppingCb 0 = false ∧
      (0 : ℕ) < 1 ∧
      (solveLoopAux envConv 0 1 [cbSentinel]).1 = ConvergenceResult.kConverged :=
  ⟨by decide, by decide, by decide,
    (Solve_convergence_declaration envConv 0 [cbSentinel]).2 (by decide) (by decide)
      1 (by decide)⟩

/-- Counterexample to C1 as stated: in envC1 both residuals are strictly below
their tolerances at iteration 0, so convergence is declared (num_cback_calls
is 0, hence the schedule is the sentinel list), yet Solve does not return the
Converged result code, because the stopping callback also returned true and
the user-stop break precedes the convergence break. -/
theorem Solve_convergence_cex :
    stepConv envC1 0 [cbSentinel] = true ∧
      (SolverSolve envC1).1 = ConvergenceResult.kStoppedUser ∧
      (SolverSolve envC1).1 ≠ ConvergenceResult.kConverged := by
  decide

/-- Claim C2 (amended): the intermediate callback is fully disabled only when
num_cback_calls = 0; whenever num_cback_calls >= 1 and max_iters >= 1 it is
invoked at least once (on the convergence, user-stop, or last iteration, the
schedule only gates the regular calls); when num_cback_calls >= 2 the schedule
is the linspace of num_cback_calls points over [0, max_iters - 1]. -/
theorem Solve_callback_schedule (env : SolveEnv) :
    (env.numCbackCalls = 0 → (SolverSolve env).2 = []) ∧
    (1 ≤ env.numCbackCalls → 1 ≤ env.maxIters → (SolverSolve env).2 ≠ []) ∧
    (2 ≤ env.numCbackCalls →
      (linspace 0 ((env.maxIters : ℚ) - 1) env.numCbackCalls).length =
          env.numCbackCalls ∧
        SolverSolve env =
          solveLoopAux env 0 env.maxIters
            (linspace 0 ((env.maxIters : ℚ) - 1) env.numCbackCalls)) := by
  refine ⟨fun h => ?_, fun hn hm => ?_, fun hn => ⟨?_, ?_⟩⟩
  · exact loop_invoked_nil env h _ _ _
  · exact loop_invoked_ne_nil env hn env.maxIters 0 _ (by omega) hm
  · unfold linspace
    rw [List.length_map, List.length_range]
  · simp [SolverSolve, hn]

/-- Witness for C2 (amended): with num_cback_calls = 0 the callback is never
invoked; with num_cback_calls = 1 and one iteration it is invoked; with
num_cback_calls = 2 the linspace schedule of length 2 is used. -/
theorem Solve_callback_schedule_w :
    (SolverSolve baseEnv).2 = [] ∧ (SolverSolve envC2).2 ≠ [] ∧
      ((linspace 0 ((envLin.maxIters : ℚ) - 1) envLin.numCbackCalls).length =
          envLin.numCbackCalls ∧
        SolverSolve envLin =
          solveLoopAux envLin 0 envLin.maxIters
            (linspace 0 ((envLin.maxIters : ℚ) - 1) envLin.numCbackCalls)) :=
  ⟨(Solve_callback_schedule baseEnv).1 rfl,
   (Solve_callback_schedule envC2).2.1 (by decide) (by decide),
   (Solve_callback_schedule envLin).2.2 (by decide)⟩

/-- Counterexample to C2 as stated: envC2 has num_cback_calls = 1 (less
than 2), yet the intermediate callback is invoked at iteration 0, because the
last-iteration trigger bypasses the schedule and the in-block gate only
requires num_cback_calls >= 1. -/
theorem Solve_callback_invoked_cex :
    envC2.numCbackCalls < 2 ∧ (SolverSolve envC2).2 = [0] := by
  decide

/-- Claim C3: for every command whose execution throws a domain exception,
including an unknown command name, mexFunction catches the exception, reports
the message to the host environment, and then invokes Release, which resets
the GPU device (the deviceResets counter increases by one). -/
theorem mexFunction_catch_reports_release
    (runCmd : String → MexState → MexState × Option String) (cmd : String)
    (s : MexState) :
    (cmd ∉ commandNames →
      mexFunction runCmd cmd s =
          Release (reportError ("Unknown command " ++ cmd ++ ".") s) ∧
        (mexFunction runCmd cmd s).deviceResets = s.deviceResets + 1 ∧
        (mexFunction runCmd cmd s).errors =
          s.errors ++ ["Unknown command " ++ cmd ++ "."]) ∧
    (∀ s1 msg, cmd ∈ commandNames → runCmd cmd s = (s1, some msg) →
      mexFunction runCmd cmd s = Release (reportError msg s1) ∧
        (mexFunction runCmd cmd s).deviceResets = s1.deviceResets + 1 ∧
        (mexFunction runCmd cmd s).errors = s1.errors ++ [msg]) := by
  constructor
  · intro h
    have he : mexFunction runCmd cmd s =
        Release (reportError ("Unknown command " ++ cmd ++ ".") s) := by
      simp [mexFunction, h]
    exact ⟨he, by rw [he]; simp [Release, reportError],
      by rw [he]; simp [Release, reportError]⟩
  · intro s1 msg hmem hrun
    have he : mexFunction runCmd cmd s = Release (reportError msg s1) := by
      simp [mexFunction, hmem, hrun]
    exact ⟨he, by rw [he]; simp [Release, reportError],
      by rw [he]; simp [Release, reportError]⟩

/-- Witness for C3: an unknown command and a throwing registered command both
end in a reported error followed by Release. -/
theorem mexFunction_catch_reports_release_w :
    ("bogus" ∉ commandNames) ∧
      mexFunction runCmdFail "bogus" s0 =
        Release (reportError ("Unknown command " ++ "bogus" ++ ".") s0) ∧
      ("eval_prox" ∈ commandNames) ∧
      mexFunction runCmdFail "eval_prox" s0 =
        Release (reportError "CUDA failure" s0) :=
  ⟨by decide,
   ((mexFunction_catch_reports_release runCmdFail "bogus" s0).1 (by decide)).1,
   by decide,
   ((mexFunction_catch_reports_release runCmdFail "eval_prox" s0).2 s0
      "CUDA failure" (by decide) rfl).1⟩

/-- Claim C4: when solve_dual_problem is set, Dualize is applied once during
Initialize (with x0 and y0 swapped) and again after the iteration loop before
Solve returns (swapped back): at return the Problem is in its original
orientation and the options hold their original warm starts, and the return
code is one of Converged, StoppedMaxIters, StoppedUser. -/
theorem Solve_dualize_restores (p : ProblemModel) (env : SolveEnv) :
    (SolverSolveRun (SolverInit p env).1 (SolverInit p env).2).problem = p ∧
    (SolverSolveRun (SolverInit p env).1 (SolverInit p env).2).opts.x0 = env.x0 ∧
    (SolverSolveRun (SolverInit p env).1 (SolverInit p env).2).opts.y0 = env.y0 ∧
    ((SolverSolveRun (SolverInit p env).1 (SolverInit p env).2).result =
        ConvergenceResult.kConverged ∨
      (SolverSolveRun (SolverInit p env).1 (SolverInit p env).2).result =
        ConvergenceResult.kStoppedMaxIters ∨
      (SolverSolveRun (SolverInit p env).1 (SolverInit p env).2).result =
        ConvergenceResult.kStoppedUser) :=
  ⟨run_problem_restored p env, run_x0_restored p env, run_y0_restored p env,
    result_trichotomy _⟩

/-- Claim C5 (amended): the solve_problem command returns a struct with
exactly five fields named x, y, z, w, result, where x (the primal solution)
has length ncols, y (the dual solution) has length nrows, z (holding Kx) has
length nrows, w (holding K-transpose-y) has length ncols, and result holds one
of the three outcome strings matching Solve's return code. -/
theorem solve_problem_struct_fields (p : ProblemModel) (env : SolveEnv) :
    (SolveProblemStruct p env).map Prod.fst = ["x", "y", "z", "w", "result"] ∧
    SolveProblemStruct p env =
      [("x", MexValue.arr p.ncols), ("y", MexValue.arr p.nrows),
       ("z", MexValue.arr p.nrows), ("w", MexValue.arr p.ncols),
       ("result", MexValue.str
         (resultString (SolverSolve (SolverInit p env).2).1))] ∧
    (∀ r, resultString r = "Converged." ∨
      resultString r = "Reached maximum iterations." ∨
      resultString r = "Stopped by user.") := by
  refine ⟨by simp [SolveProblemStruct], ?_, resultString_cases⟩
  have hp := run_problem_restored p env
  have hr := run_result_eq p env
  simp only [SolveProblemStruct]
  rw [hp, hr]

/-- Counterexample to C5 as stated: the field names of the returned struct
are x, y, z, w, result, not x, Kx, y, Kᵀy, result_string. -/
theorem solve_problem_fieldnames_cex :
    (SolveProblemStruct pC baseEnv).map Prod.fst = ["x", "y", "z", "w", "result"] ∧
      (SolveProblemStruct pC baseEnv).map Prod.fst ≠
        ["x", "Kx", "y", "Kᵀy", "result_string"] := by
  decide

/-- Claim C6: the eval_prox command fails with an exception when the length n
of the argument vector differs from the size of the constructed prox, or when
fewer than four inputs or zero outputs are supplied; when n matches (for a
column-vector argument) it returns exactly the pair of the result vector of
length n and the 1-by-1 timing value. -/
theorem EvalProx_size_check (nrhs nlhs argRows argCols proxSize : ℕ) :
    ((proxSize ≠ argRows ∨ nrhs < 4 ∨ nlhs = 0) →
      ∃ msg, EvalProx nrhs nlhs argRows argCols proxSize = Except.error msg) ∧
    (4 ≤ nrhs → 1 ≤ nlhs → argCols = 1 → proxSize = argRows →
      EvalProx nrhs nlhs argRows argCols proxSize =
        Except.ok (MexValue.arr argRows, MexValue.arr 1)) := by
  constructor
  · intro h
    unfold EvalProx
    split_ifs with h1 h2 h3 h4
    · exact ⟨_, rfl⟩
    · exact ⟨_, rfl⟩
    · exact ⟨_, rfl⟩
    · exact ⟨_, rfl⟩
    · rcases h with h | h | h
      · exact absurd h h4
      · exact absurd h h1
      · exact absurd h h2
  · intro h1 h2 h3 h4
    unfold EvalProx
    rw [if_neg (by omega), if_neg (by omega), if_neg (by omega), if_neg (by omega)]

/-- Witness for C6: a size mismatch (prox size 5, argument length 3) fails,
and a matching size (both 3) returns the result vector and the timing
value. -/
theorem EvalProx_size_check_w :
    ((5 : ℕ) ≠ 3 ∨ 4 < 4 ∨ (1 : ℕ) = 0) ∧
      (∃ msg, EvalProx 4 1 3 1 5 = Except.error msg) ∧
      (4 : ℕ) ≤ 4 ∧ (1 : ℕ) ≤ 1 ∧
      EvalProx 4 1 3 1 3 = Except.ok (MexValue.arr 3, MexValue.arr 1) :=
  ⟨Or.inl (by decide),
   (EvalProx_size_check 4 1 3 1 5).1 (Or.inl (by decide)),
   by decide, by decide,
   (EvalProx_size_check 4 1 3 1 3).2 (by decide) (by decide) rfl rfl⟩

/-- Claim C7: the Moreau formula applied to the 1D absolute-value prox yields
the projection onto an interval: for every scalar v, every tau > 0, every
lam >= 0 and all alpha, beta, v - tau * Function1DAbs (v/tau) (lam/tau) equals
the clamp of v to [-lam, lam]. -/
theorem moreau_abs_clamp (v tau lam alpha beta : ℚ) (ht : 0 < tau)
    (hl : 0 ≤ lam) :
    v - tau * Function1DAbs (v / tau) (lam / tau) alpha beta =
      max (-lam) (min lam v) := by
  have htne : tau ≠ 0 := ne_of_gt ht
  unfold Function1DAbs
  rcases le_or_lt (lam / tau) (v / tau) with h1 | h1
  · rw [if_pos (show v / tau ≥ lam / tau from h1)]
    have hv : lam ≤ v := by
      rw [div_le_div_iff₀ ht ht] at h1
      nlinarith
    rw [min_eq_left hv, max_eq_right (by linarith : -lam ≤ lam)]
    have hsub : tau * (v / tau - lam / tau) = v - lam := by
      field_simp
    rw [hsub]
    ring
  · rw [if_neg (not_le.mpr h1)]
    have hvlt : v < lam := by
      rw [div_lt_div_iff₀ ht ht] at h1
      nlinarith
    rcases le_or_lt (v / tau) (-(lam / tau)) with h2 | h2
    · rw [if_pos h2]
      have hvle : v ≤ -lam := by
        have h2' : v / tau ≤ (-lam) / tau := by rw [neg_div]; exact h2
        rw [div_le_div_iff₀ ht ht] at h2'
        nlinarith
      rw [min_eq_right (le_of_lt hvlt), max_eq_left hvle]
      have hsub : tau * (v / tau + lam / tau) = v + lam := by
        field_simp
      rw [hsub]
      ring
    · rw [if_neg (not_le.mpr h2)]
      have hgt : -lam < v := by
        have h2' : (-lam) / tau < v / tau := by rw [neg_div]; exact h2
        rw [div_lt_div_iff₀ ht ht] at h2'
        nlinarith
      rw [min_eq_right (le_of_lt hvlt), max_eq_right (le_of_lt hgt)]
      ring

/-- Witness for C7: with lam = tau = 1/2, the Moreau formula at v = -1
evaluates to the clamp value -1/2, and the inputs [-1, 1/5, 7/10] map to
[-1/2, 1/5, 1/2]. -/
theorem moreau_abs_clamp_w :
    (0 : ℚ) < 1/2 ∧ (0 : ℚ) ≤ 1/2 ∧
      ((-1 : ℚ) - (1/2) * Function1DAbs ((-1) / (1/2)) ((1/2) / (1/2)) 0 0 =
        max (-(1/2)) (min (1/2) (-1))) ∧
      ([(-1 : ℚ), 1/5, 7/10].map
          (fun a => a - (1/2) * Function1DAbs (a / (1/2)) ((1/2) / (1/2)) 0 0) =
        [-(1/2), 1/5, 1/2]) :=
  ⟨by norm_num, by norm_num,
   moreau_abs_clamp (-1) (1/2) (1/2) 0 0 (by norm_num) (by norm_num),
   by norm_num [Function1DAbs]⟩

/-- Claim C8: for every input x0, every step size tau and all alpha, beta,
Function1DSquare returns x0 / (1 + tau); on [1, 2, 3] with tau = 1 the result
is [1/2, 1, 3/2]. -/
theorem square_prox_formula (x0 tau alpha beta : ℚ) :
    Function1DSquare x0 tau alpha beta = x0 / (1 + tau) ∧
      [(1 : ℚ), 2, 3].map (fun a => Function1DSquare a 1 0 0) = [1/2, 1, 3/2] :=
  ⟨rfl, by norm_num [Function1DSquare]⟩

/-- Claim C9: each indicator 1D scalar prox function is idempotent (also
across different step sizes tau, tau-prime and parameters) and its output is
exactly feasible for the corresponding constraint set. -/
theorem indicator_prox_idempotent_feasible
    (x0 tau tau' alpha beta alpha' beta' : ℚ) :
    (Function1DIndLeq0 (Function1DIndLeq0 x0 tau alpha beta) tau' alpha' beta' =
        Function1DIndLeq0 x0 tau alpha beta ∧
      Function1DIndLeq0 x0 tau alpha beta ≤ 0) ∧
    (Function1DIndGeq0 (Function1DIndGeq0 x0 tau alpha beta) tau' alpha' beta' =
        Function1DIndGeq0 x0 tau alpha beta ∧
      0 ≤ Function1DIndGeq0 x0 tau alpha beta) ∧
    (Function1DIndEq0 (Function1DIndEq0 x0 tau alpha beta) tau' alpha' beta' =
        Function1DIndEq0 x0 tau alpha beta ∧
      Function1DIndEq0 x0 tau alpha beta = 0) ∧
    (Function1DIndBox01 (Function1DIndBox01 x0 tau alpha beta) tau' alpha' beta' =
        Function1DIndBox01 x0 tau alpha beta ∧
      0 ≤ Function1DIndBox01 x0 tau alpha beta ∧
      Function1DIndBox01 x0 tau alpha beta ≤ 1) := by
  refine ⟨⟨?_, ?_⟩, ⟨?_, ?_⟩, ⟨rfl, rfl⟩, ⟨?_, ?_, ?_⟩⟩ <;>
    · simp only [Function1DIndLeq0, Function1DIndGeq0, Function1DIndBox01]
      split_ifs <;> first | rfl | linarith

/-- Claim C10: when the stopping callback returns true in an iteration where
convergence is also declared, the loop returns StoppedUser rather than
Converged: the user-stop break is evaluated and acted on before the
convergence break.  Solve is this loop started at iteration 0 with fuel
max_iters. -/
theorem Solve_stop_priority (env : SolveEnv) (i : ℕ) (cb : List ℚ)
    (hs : env.stoppingCb i = true) (hc : stepConv env i cb = true)
    (fuel : ℕ) (hf : 0 < fuel) :
    (solveLoopAux env i fuel cb).1 = ConvergenceResult.kStoppedUser ∧
      (solveLoopAux env i fuel cb).1 ≠ ConvergenceResult.kConverged := by
  have h := solveLoop_result_of_brk env i cb _ fuel (stepBrk_of_stopped env i cb hs) hf
  refine ⟨h, ?_⟩
  rw [h]
  simp

/-- Witness for C10: in envStop, at iteration 0 the stopping callback returns
true and convergence is declared via the intermediate callback, and the loop
returns StoppedUser. -/
theorem Solve_stop_priority_w :
    envStop.stoppingCb 0 = true ∧ stepConv envStop 0 [cbSentinel] = true ∧
      (0 : ℕ) < 1 ∧
      (solveLoopAux envStop 0 1 [cbSentinel]).1 = ConvergenceResult.kStoppedUser :=
  ⟨by decide, by decide, by decide,
    (Solve_stop_priority envStop 0 [cbSentinel] (by decide) (by decide) 1
      (by decide)).1⟩

end prost
